import Mathlib

/-! Request handlers of the users service (`api/chi.go`).

A shallow embedding of the handler layer of the CRUD service: the five
handlers `Insert`, `All`, `ByID`, `Update`, `Delete`, the helper `writeResp`
and the router constructor `Handlers`.

* Errors are modelled by their text (`err.Error()`), a `[]byte` by the string
  of its bytes, and a value that may be `nil` by an `Option`.
* The response writer is a record of what has reached the client; the store is
  an explicit state threaded through the data-access calls, and every handler
  also returns the list of data-access calls it made.
* Functions of other packages that the handlers call (`strconv.Atoi`, the JSON
  decoder and encoder for `model.User`, the data-access interface behind
  `a.Service.DB`) are parameters.
-/

set_option autoImplicit false

/-! ## Other packages -/

/-- Modelled from the spec: package `model` is not among the sources. The spec
describes `User` as a numeric identifier (int64) plus profile fields (name,
email). -/
structure model.User where
  ID : Int
  Name : String
  Email : String
deriving DecidableEq, Repr

/-- A `context.Context`, as far as deadlines go: `context.Background()` or a
context derived from a parent by `context.WithTimeout` (duration in
nanoseconds). -/
inductive Context where
  | Background : Context
  | WithTimeout (parent : Context) (d : Nat) : Context
deriving DecidableEq, Repr

/-- The duration after which the context is cancelled, if it has one of its
own (`Background` is never cancelled). -/
def Context.Deadline : Context → Option Nat
  | .Background => none
  | .WithTimeout _ d => some d

/-- Nanoseconds in `time.Second`. -/
def time.Second : Nat := 1000000000

def http.StatusOK : Nat := 200
def http.StatusCreated : Nat := 201
def http.StatusBadRequest : Nat := 400
def http.StatusInternalServerError : Nat := 500
def http.StatusGatewayTimeout : Nat := 504

/-- An `http.Header`, as an association list with one value per key. -/
abbrev http.Header := List (String × String)

/-- The method `Header.Set`: replaces whatever the key held. -/
def http.Header.Set (h : http.Header) (key value : String) : http.Header :=
  (key, value) :: h.filter (fun kv => kv.1 != key)

/-- The method `Header.Get`: the value of the key, if any. -/
def http.Header.Get (h : http.Header) (key : String) : Option String :=
  (h.find? (fun kv => kv.1 == key)).map (fun kv => kv.2)

/-- An `http.ResponseWriter` of the `net/http` server.

* `header` is the live map returned by `Header()`;
* `wroteHeader` is the status line sent to the client, once there is one,
  and `sentHeader` the headers that went out with it;
* `body` is what has been written after the headers;
* `writeErr`, when set, is a failed connection: every `Write` of data returns
  this error and delivers nothing;
* `informational` lists the 1xx responses sent ahead of the status line;
* `panicked`, when set, is the panic with which `WriteHeader` refused an
  invalid status code: the function that called it does not continue. -/
structure http.ResponseWriter where
  header : http.Header
  wroteHeader : Option Nat
  sentHeader : http.Header
  body : String
  writeErr : Option String
  informational : List Nat
  panicked : Option String
deriving DecidableEq, Repr

/-- The writer the server hands to the handler chain for a new request. -/
def http.NewResponseWriter (writeErr : Option String) : http.ResponseWriter :=
  { header := [], wroteHeader := none, sentHeader := [], body := "", writeErr := writeErr,
    informational := [], panicked := none }

/-- The library function `bodyAllowedForStatus`: no body goes with a 1xx, 204
or 304 status. -/
def http.bodyAllowedForStatus (status : Nat) : Bool :=
  if 100 ≤ status ∧ status ≤ 199 then false
  else if status = 204 then false
  else if status = 304 then false
  else true

/-- The error `http.ErrBodyNotAllowed`. -/
def http.ErrBodyNotAllowed : String :=
  "http: request method or response status code does not allow body"

/-- The effect of `w.Header().Set(key, value)`. -/
def http.ResponseWriter.HeaderSet (w : http.ResponseWriter) (key value : String) :
    http.ResponseWriter :=
  { w with header := w.header.Set key value }

/-- The effect of `w.WriteHeader(code)`. Once a status line is sent, a later
call is superfluous and changes nothing. Otherwise a code below 100 or above
999 panics (`checkWriteHeaderCode`), a 1xx code other than 101 is sent as an
informational response that leaves the status line open, and any other code is
sent as the status line with the headers set so far. -/
def http.ResponseWriter.WriteHeader (w : http.ResponseWriter) (code : Nat) :
    http.ResponseWriter :=
  match w.wroteHeader with
  | some _ => w
  | none =>
    if code < 100 ∨ code > 999 then
      { w with panicked := some ("invalid WriteHeader code " ++ toString code) }
    else if 100 ≤ code ∧ code ≤ 199 ∧ code ≠ 101 then
      { w with informational := w.informational ++ [code] }
    else { w with wroteHeader := some code, sentHeader := w.header }

/-- The effect of `w.Write(data)` and the error it returns: an implicit
`WriteHeader(StatusOK)` if no status line was sent yet; then empty data is
accepted as it is, data is refused when the status allows no body, and
otherwise the data goes out on the connection. -/
def http.ResponseWriter.Write (w : http.ResponseWriter) (data : String) :
    http.ResponseWriter × Option String :=
  let w1 := w.WriteHeader http.StatusOK
  if data = "" then (w1, none)
  else if http.bodyAllowedForStatus (w1.wroteHeader.getD http.StatusOK) = false then
    (w1, some http.ErrBodyNotAllowed)
  else
    match w1.writeErr with
    | some err => (w1, some err)
    | none => ({ w1 with body := w1.body ++ data }, none)

/-- The standard `http.Error(w, error, code)`: plain-text headers, the status,
then the message as one line (`fmt.Fprintln`), whose write error is dropped.
A panic of `WriteHeader` ends the call. -/
def http.Error (w : http.ResponseWriter) (error : String) (code : Nat) : http.ResponseWriter :=
  let w1 := w.HeaderSet "Content-Type" "text/plain; charset=utf-8"
  let w2 := w1.HeaderSet "X-Content-Type-Options" "nosniff"
  let w3 := w2.WriteHeader code
  match w3.panicked with
  | some _ => w3
  | none => (w3.Write (error ++ "\n")).1

/-- An `*http.Request`, as far as the handlers read it: its context, its body,
and the URL parameters bound by the router when it matched the route. -/
structure http.Request where
  ctx : Context
  Body : String
  URLParams : List (String × String)
deriving DecidableEq, Repr

/-- The effect of `r.WithContext(ctx)`. -/
def http.Request.WithContext (r : http.Request) (ctx : Context) : http.Request :=
  { r with ctx := ctx }

/-- The library function `chi.URLParam(r, key)`: the last value bound to the
key, or the empty string. -/
def chi.URLParam (r : http.Request) (key : String) : String :=
  match r.URLParams.reverse.find? (fun kv => kv.1 == key) with
  | some kv => kv.2
  | none => ""

/-- Library functions the handlers call, as parameters:
`Atoi` is `strconv.Atoi`, `Decode` is `json.NewDecoder(r.Body).Decode(&u)`
on a zero `model.User`, `Marshal` is `json.Marshal` on a `model.User`. -/
structure Lib where
  Atoi : String → Except String Int
  Decode : String → Except String model.User
  Marshal : model.User → Except String String

/-- The JSON encoding by `json.Marshal` of a `[]model.User`: a nil slice
encodes as `null`, any other slice as the array of its elements. -/
def Lib.MarshalSlice (lib : Lib) : Option (List model.User) → Except String String
  | none => .ok "null"
  | some us =>
    match us.mapM lib.Marshal with
    | .error err => .error err
    | .ok parts => .ok ("[" ++ ",".intercalate parts ++ "]")

/-- The data-access interface behind `a.Service.DB`, over a store state `σ`;
package `service` is not among the sources, and the operations are parameters
with the signatures of their call sites. Each operation takes the context it
is called with and returns its error
(`none` for a nil error) and the store it leaves. `Insert` is given a pointer
to the user and so also returns the user as it leaves it; `All` returns a
slice, which may be nil (`none`). -/
structure service.DB (σ : Type) where
  User : Context → Int → σ → Except String model.User × σ
  Insert : Context → model.User → σ → Option String × model.User × σ
  Update : Context → model.User → σ → Option String × σ
  Delete : Context → Int → σ → Option String × σ
  All : Context → σ → Except String (Option (List model.User)) × σ

/-- The struct `service.Conn`, as far as the handlers use it. -/
structure service.Conn (σ : Type) where
  DB : service.DB σ

/-! ## Package `api` -/

namespace api

/-- The constant `timeout`, in seconds. -/
def timeout : Nat := 15

/-- The struct `Router`: the connection to `service.Conn`. -/
structure Router (σ : Type) where
  Service : service.Conn σ

/-- A data-access operation with its arguments. -/
inductive Op where
  | User (id : Int)
  | Insert (u : model.User)
  | Update (u : model.User)
  | Delete (id : Int)
  | All
deriving DecidableEq, Repr

/-- One call of the data-access interface: the context and arguments it was
given and the error it returned. -/
structure Call where
  ctx : Context
  op : Op
  err : Option String
deriving DecidableEq, Repr

/-- The error of a result that comes with a value: `none` for a nil error. -/
def errOf {α : Type} : Except String α → Option String
  | .error err => some err
  | .ok _ => none

/-- What a handler leaves behind: the response writer, the store, and the
data-access calls it made, in order. -/
structure Outcome (σ : Type) where
  w : http.ResponseWriter
  store : σ
  calls : List Call

/-- An `http.HandlerFunc`, run against a store. -/
abbrev Handler (σ : Type) := http.ResponseWriter → http.Request → σ → Outcome σ

/-- The function `writeResp`. A panic of `WriteHeader` ends the call. -/
def writeResp (w : http.ResponseWriter) (status : Nat) (data : Option String) :
    http.ResponseWriter :=
  match data with
  | none => w.WriteHeader status
  | some d =>
    let w1 := w.HeaderSet "Content-Type" "application/json"
    let w2 := w1.WriteHeader status
    match w2.panicked with
    | some _ => w2
    | none =>
      match w2.Write d with
      | (w3, some err) => http.Error w3 err http.StatusInternalServerError
      | (w3, none) => w3

/-- The handler `ByID` (GET /users/{id}). -/
def Router.ByID {σ : Type} (lib : Lib) (a : Router σ) : Handler σ := fun w r s =>
  match lib.Atoi (chi.URLParam r "id") with
  | .error err => ⟨http.Error w err http.StatusBadRequest, s, []⟩
  | .ok id =>
    match a.Service.DB.User Context.Background id s with
    | (.error err, s1) =>
      ⟨http.Error w err http.StatusInternalServerError, s1,
        [⟨Context.Background, Op.User id, some err⟩]⟩
    | (.ok resp, s1) =>
      match lib.Marshal resp with
      | .error err =>
        ⟨http.Error w err http.StatusInternalServerError, s1,
          [⟨Context.Background, Op.User id, none⟩]⟩
      | .ok respBytes =>
        ⟨writeResp w http.StatusOK (some respBytes), s1,
          [⟨Context.Background, Op.User id, none⟩]⟩

/-- The handler `Insert` (POST /users). -/
def Router.Insert {σ : Type} (lib : Lib) (a : Router σ) : Handler σ := fun w r s =>
  match lib.Decode r.Body with
  | .error err => ⟨http.Error w err http.StatusBadRequest, s, []⟩
  | .ok u =>
    match a.Service.DB.Insert Context.Background u s with
    | (some err, _, s1) =>
      ⟨http.Error w err http.StatusInternalServerError, s1,
        [⟨Context.Background, Op.Insert u, some err⟩]⟩
    | (none, u1, s1) =>
      match lib.Marshal u1 with
      | .error err =>
        ⟨http.Error w err http.StatusInternalServerError, s1,
          [⟨Context.Background, Op.Insert u, none⟩]⟩
      | .ok uBytes =>
        ⟨writeResp w http.StatusCreated (some uBytes), s1,
          [⟨Context.Background, Op.Insert u, none⟩]⟩

/-- The handler `Update` (PUT /users/{id}). The conversion `int64(id)` of an
`int` loses nothing. -/
def Router.Update {σ : Type} (lib : Lib) (a : Router σ) : Handler σ := fun w r s =>
  match lib.Decode r.Body with
  | .error err => ⟨http.Error w err http.StatusBadRequest, s, []⟩
  | .ok u =>
    match lib.Atoi (chi.URLParam r "id") with
    | .error err => ⟨http.Error w err http.StatusBadRequest, s, []⟩
    | .ok id =>
      let u1 : model.User := { u with ID := id }
      match a.Service.DB.Update Context.Background u1 s with
      | (some err, s1) =>
        ⟨http.Error w err http.StatusInternalServerError, s1,
          [⟨Context.Background, Op.Update u1, some err⟩]⟩
      | (none, s1) =>
        ⟨writeResp w http.StatusOK none, s1, [⟨Context.Background, Op.Update u1, none⟩]⟩

/-- The handler `Delete` (DELETE /users/{id}). -/
def Router.Delete {σ : Type} (lib : Lib) (a : Router σ) : Handler σ := fun w r s =>
  match lib.Atoi (chi.URLParam r "id") with
  | .error err => ⟨http.Error w err http.StatusBadRequest, s, []⟩
  | .ok id =>
    match a.Service.DB.Delete Context.Background id s with
    | (some err, s1) =>
      ⟨http.Error w err http.StatusInternalServerError, s1,
        [⟨Context.Background, Op.Delete id, some err⟩]⟩
    | (none, s1) =>
      ⟨writeResp w http.StatusOK none, s1, [⟨Context.Background, Op.Delete id, none⟩]⟩

/-- The handler `All` (GET /users). -/
def Router.All {σ : Type} (lib : Lib) (a : Router σ) : Handler σ := fun w _ s =>
  match a.Service.DB.All Context.Background s with
  | (.error err, s1) =>
    ⟨http.Error w err http.StatusInternalServerError, s1,
      [⟨Context.Background, Op.All, some err⟩]⟩
  | (.ok resp, s1) =>
    match lib.MarshalSlice resp with
    | .error err =>
      ⟨http.Error w err http.StatusInternalServerError, s1,
        [⟨Context.Background, Op.All, none⟩]⟩
    | .ok respBytes =>
      ⟨writeResp w http.StatusOK (some respBytes), s1, [⟨Context.Background, Op.All, none⟩]⟩

/-- The five routes registered under `/users`. -/
inductive Route where
  | PostUsers
  | GetUsers
  | GetUser
  | PutUser
  | DeleteUser
deriving DecidableEq, Repr

/-- The library middleware `middleware.Timeout(d)`: the next handler gets the
request with a context derived by `context.WithTimeout(r.Context(), d)`; when
it returns and the deadline has passed (`expired`), the middleware calls
`w.WriteHeader(StatusGatewayTimeout)`. -/
def middleware.Timeout {σ : Type} (d : Nat) (expired : Bool) (next : Handler σ) : Handler σ :=
  fun w r s =>
    let ctx := Context.WithTimeout r.ctx d
    let out := next w (r.WithContext ctx) s
    if expired then { out with w := out.w.WriteHeader http.StatusGatewayTimeout } else out

/-- The handler a route is bound to in `Handlers`. -/
def Router.handler {σ : Type} (lib : Lib) (a : Router σ) : Route → Handler σ
  | .PostUsers => a.Insert lib
  | .GetUsers => a.All lib
  | .GetUser => a.ByID lib
  | .PutUser => a.Update lib
  | .DeleteUser => a.Delete lib

/-- The function `Handlers`, on a request the router has matched to `route`
(the URL parameters are bound in the request): the timeout middleware around
the handler of the route. `middleware.Logger` only logs the request. -/
def Handlers {σ : Type} (lib : Lib) (a : Router σ) (expired : Bool) (route : Route) :
    Handler σ :=
  middleware.Timeout (timeout * time.Second) expired (a.handler lib route)

end api

/-! ## A concrete instance -/

namespace sample

/-- Decimal digits to a number; `none` on an empty or non-digit input. -/
def digits : List Char → Option Nat → Option Nat
  | [], acc => acc
  | c :: cs, acc =>
    if c.isDigit then digits cs (some (acc.getD 0 * 10 + (c.toNat - 48))) else none

/-- An `Atoi` for optionally signed decimal numerals. -/
def Atoi (s : String) : Except String Int :=
  let bad : Except String Int := .error ("strconv.Atoi: parsing \"" ++ s ++ "\": invalid syntax")
  match s.data with
  | '-' :: cs =>
    match digits cs none with
    | some n => .ok (-(n : Int))
    | none => bad
  | cs =>
    match digits cs none with
    | some n => .ok (n : Int)
    | none => bad

/-- A request body without an id. -/
def aliceBody : String := "\x7b\"name\":\"Alice\"\x7d"

/-- A request body that carries the id 9. -/
def bobBody : String := "\x7b\"id\":9,\"name\":\"Bob\"\x7d"

/-- A decoder that knows the two request bodies above. -/
def Decode (body : String) : Except String model.User :=
  if body = aliceBody then .ok { ID := 0, Name := "Alice", Email := "" }
  else if body = bobBody then .ok { ID := 9, Name := "Bob", Email := "" }
  else .error "unexpected end of JSON input"

/-- An encoder for users. -/
def Marshal (u : model.User) : Except String String :=
  .ok ("\x7b\"id\":" ++ toString u.ID ++ ",\"name\":\"" ++ u.Name ++ "\"\x7d")

def lib : Lib := { Atoi := Atoi, Decode := Decode, Marshal := Marshal }

/-- An in-memory store: the list of users; ids are assigned on insert, and
`All` builds its slice by appending to a nil slice. -/
def memDB : service.DB (List model.User) where
  User := fun _ id s =>
    match s.find? (fun u => u.ID == id) with
    | some u => (.ok u, s)
    | none => (.error "sql: no rows in result set", s)
  Insert := fun _ u s =>
    let u1 : model.User := { u with ID := (s.length : Int) + 1 }
    (none, u1, s ++ [u1])
  Update := fun _ u s => (none, s.map (fun v => if v.ID == u.ID then u else v))
  Delete := fun _ id s => (none, s.filter (fun v => v.ID != id))
  All := fun _ s => (.ok (if s.isEmpty then none else some s), s)

/-- A store whose every operation fails. -/
def downDB : service.DB Unit where
  User := fun _ _ s => (.error "connection refused", s)
  Insert := fun _ u s => (some "connection refused", u, s)
  Update := fun _ _ s => (some "connection refused", s)
  Delete := fun _ _ s => (some "connection refused", s)
  All := fun _ s => (.error "connection refused", s)

/-- The in-memory store with an `All` that returns the stored list as a
non-nil slice, also when it is empty. -/
def allocDB : service.DB (List model.User) :=
  { memDB with All := fun _ s => (.ok (some s), s) }

def router : api.Router (List model.User) := { Service := { DB := memDB } }

def allocRouter : api.Router (List model.User) := { Service := { DB := allocDB } }

def downRouter : api.Router Unit := { Service := { DB := downDB } }

def alice : model.User := { ID := 1, Name := "Alice", Email := "" }

/-- A request as the router passes it on: a body and the `id` segment of the
path. -/
def req (body id : String) : http.Request :=
  { ctx := Context.Background, Body := body, URLParams := [("id", id)] }

end sample

/-! ## The response writer -/

open api

/-- A line written by `fmt.Fprintln` is not empty. -/
theorem line_ne_empty (e : String) : e ++ "\n" ≠ "" := by
  intro h
  have h1 := congrArg String.length h
  simp at h1
  exact absurd h1.2 (by decide)

/-- Once a status line is sent, `WriteHeader` changes nothing. -/
theorem WriteHeader_superfluous (w : http.ResponseWriter) (code st : Nat)
    (h : w.wroteHeader = some st) : w.WriteHeader code = w := by
  simp [http.ResponseWriter.WriteHeader, h]

/-- The first `WriteHeader` with a final status code (101, or 200 to 999) sends
the status line with the headers set so far. -/
theorem WriteHeader_final (w : http.ResponseWriter) (code : Nat)
    (h : w.wroteHeader = none) (hc : code = 101 ∨ (200 ≤ code ∧ code ≤ 999)) :
    w.WriteHeader code = { w with wroteHeader := some code, sentHeader := w.header } := by
  have h1 : ¬ (code < 100 ∨ code > 999) := by omega
  have h2 : ¬ (100 ≤ code ∧ code ≤ 199 ∧ code ≠ 101) := by omega
  simp [http.ResponseWriter.WriteHeader, h, h1, h2]

/-- The status line after `Write` is the one `WriteHeader(StatusOK)` leaves. -/
theorem Write_wroteHeader (w : http.ResponseWriter) (data : String) :
    (w.Write data).1.wroteHeader = (w.WriteHeader http.StatusOK).wroteHeader := by
  unfold http.ResponseWriter.Write
  dsimp only
  split
  · rfl
  · split
    · rfl
    · split <;> rfl

/-- The headers sent after `Write` are those `WriteHeader(StatusOK)` leaves. -/
theorem Write_sentHeader (w : http.ResponseWriter) (data : String) :
    (w.Write data).1.sentHeader = (w.WriteHeader http.StatusOK).sentHeader := by
  unfold http.ResponseWriter.Write
  dsimp only
  split
  · rfl
  · split
    · rfl
    · split <;> rfl

/-- Once a status line is sent, `http.Error` cannot change it. -/
theorem http_Error_keeps_status (w : http.ResponseWriter) (e : String) (code st : Nat)
    (h : w.wroteHeader = some st) : (http.Error w e code).wroteHeader = some st := by
  have h2 : ((w.HeaderSet "Content-Type" "text/plain; charset=utf-8").HeaderSet
      "X-Content-Type-Options" "nosniff").wroteHeader = some st := h
  unfold http.Error
  dsimp only
  rw [WriteHeader_superfluous _ code st h2]
  split
  · exact h2
  · rw [Write_wroteHeader, WriteHeader_superfluous _ _ st h2]
    exact h2

/-- Once a status line is sent, `http.Error` cannot change the headers that
went out with it. -/
theorem http_Error_keeps_sentHeader (w : http.ResponseWriter) (e : String) (code st : Nat)
    (h : w.wroteHeader = some st) : (http.Error w e code).sentHeader = w.sentHeader := by
  have h2 : ((w.HeaderSet "Content-Type" "text/plain; charset=utf-8").HeaderSet
      "X-Content-Type-Options" "nosniff").wroteHeader = some st := h
  unfold http.Error
  dsimp only
  rw [WriteHeader_superfluous _ code st h2]
  split
  · rfl
  · rw [Write_sentHeader, WriteHeader_superfluous _ _ st h2]
    rfl

/-- On a new writer `http.Error` sends its status code, when it is a final
status code. -/
theorem http_Error_new_status (we : Option String) (e : String) (code : Nat)
    (hc : code = 101 ∨ (200 ≤ code ∧ code ≤ 999)) :
    (http.Error (http.NewResponseWriter we) e code).wroteHeader = some code := by
  unfold http.Error
  dsimp only
  rw [WriteHeader_final _ code rfl hc]
  dsimp only [http.NewResponseWriter, http.ResponseWriter.HeaderSet]
  rw [Write_wroteHeader]
  rfl

/-- On a new writer with a working connection the body `http.Error` leaves is
the message as one line, when the status is one that allows a body. -/
theorem http_Error_new_body (e : String) (code : Nat) (h1 : 200 ≤ code) (h2 : code ≤ 999)
    (h3 : code ≠ 204) (h4 : code ≠ 304) :
    (http.Error (http.NewResponseWriter none) e code).body = e ++ "\n" := by
  have hb : http.bodyAllowedForStatus code = true := by
    have : ¬ (100 ≤ code ∧ code ≤ 199) := by omega
    simp [http.bodyAllowedForStatus, this, h3, h4]
  unfold http.Error
  dsimp only
  rw [WriteHeader_final _ code rfl (Or.inr ⟨h1, h2⟩)]
  simp [http.NewResponseWriter, http.ResponseWriter.HeaderSet, http.ResponseWriter.Write,
    http.ResponseWriter.WriteHeader, line_ne_empty, hb]

/-- On a new writer `writeResp` sends the status it is given, when it is a
final status code, whatever the data and whether or not the body write
fails. -/
theorem writeResp_new_status (we : Option String) (status : Nat) (data : Option String)
    (hc : status = 101 ∨ (200 ≤ status ∧ status ≤ 999)) :
    (writeResp (http.NewResponseWriter we) status data).wroteHeader = some status := by
  cases data with
  | none =>
    unfold writeResp
    dsimp only
    rw [WriteHeader_final _ status rfl hc]
  | some d =>
    unfold writeResp
    dsimp only
    rw [WriteHeader_final _ status rfl hc]
    dsimp only [http.NewResponseWriter, http.ResponseWriter.HeaderSet]
    split
    · rename_i w3 err heq
      have h3 : w3.wroteHeader = some status := by
        have := Write_wroteHeader
          { header := http.Header.Set [] "Content-Type" "application/json",
            wroteHeader := some status,
            sentHeader := http.Header.Set [] "Content-Type" "application/json",
            body := "", writeErr := we, informational := [], panicked := none } d
        rw [heq] at this
        rw [this, WriteHeader_superfluous _ _ status rfl]
      exact http_Error_keeps_status w3 err _ status h3
    · rename_i w3 heq
      have := Write_wroteHeader
        { header := http.Header.Set [] "Content-Type" "application/json",
          wroteHeader := some status,
          sentHeader := http.Header.Set [] "Content-Type" "application/json",
          body := "", writeErr := we, informational := [], panicked := none } d
      rw [heq] at this
      rw [this, WriteHeader_superfluous _ _ status rfl]

/-- The headers `writeResp` sends from a new writer, when the status is a
final status code. -/
theorem writeResp_new_sentHeader (we : Option String) (status : Nat) (data : Option String)
    (hc : status = 101 ∨ (200 ≤ status ∧ status ≤ 999)) :
    (writeResp (http.NewResponseWriter we) status data).sentHeader =
      match data with
      | none => []
      | some _ => [("Content-Type", "application/json")] := by
  cases data with
  | none =>
    unfold writeResp
    dsimp only
    rw [WriteHeader_final _ status rfl hc]
    rfl
  | some d =>
    unfold writeResp
    dsimp only
    rw [WriteHeader_final _ status rfl hc]
    dsimp only [http.NewResponseWriter, http.ResponseWriter.HeaderSet]
    have hw := Write_wroteHeader
      { header := http.Header.Set [] "Content-Type" "application/json",
        wroteHeader := some status,
        sentHeader := http.Header.Set [] "Content-Type" "application/json",
        body := "", writeErr := we, informational := [], panicked := none } d
    have hs := Write_sentHeader
      { header := http.Header.Set [] "Content-Type" "application/json",
        wroteHeader := some status,
        sentHeader := http.Header.Set [] "Content-Type" "application/json",
        body := "", writeErr := we, informational := [], panicked := none } d
    rw [WriteHeader_superfluous _ _ status rfl] at hw hs
    split
    · rename_i w3 err heq
      rw [heq] at hw hs
      rw [http_Error_keeps_sentHeader w3 err _ status hw, hs]
      rfl
    · rename_i w3 heq
      rw [heq] at hs
      rw [hs]
      rfl

/-- The body `writeResp` leaves on a new writer with a working connection,
when the status is one that allows a body. -/
theorem writeResp_new_body (status : Nat) (data : Option String) (h1 : 200 ≤ status)
    (h2 : status ≤ 999) (h3 : status ≠ 204) (h4 : status ≠ 304) :
    (writeResp (http.NewResponseWriter none) status data).body = data.getD "" := by
  have hb : http.bodyAllowedForStatus status = true := by
    have : ¬ (100 ≤ status ∧ status ≤ 199) := by omega
    simp [http.bodyAllowedForStatus, this, h3, h4]
  cases data with
  | none =>
    unfold writeResp
    dsimp only
    rw [WriteHeader_final _ status rfl (Or.inr ⟨h1, h2⟩)]
    rfl
  | some d =>
    unfold writeResp
    dsimp only
    rw [WriteHeader_final _ status rfl (Or.inr ⟨h1, h2⟩)]
    by_cases hd : d = ""
    · subst hd
      simp [http.NewResponseWriter, http.ResponseWriter.HeaderSet, http.ResponseWriter.Write,
        http.ResponseWriter.WriteHeader]
    · simp [http.NewResponseWriter, http.ResponseWriter.HeaderSet, http.ResponseWriter.Write,
        http.ResponseWriter.WriteHeader, hd, hb]

/-- Every handler passes `context.Background()` to the data-access interface,
whatever the context of the request. -/
theorem handler_calls_ctx {σ : Type} (lib : Lib) (a : Router σ) (route : Route)
    (w : http.ResponseWriter) (r : http.Request) (s : σ) (c : Call)
    (hc : c ∈ (a.handler lib route w r s).calls) : c.ctx = Context.Background := by
  cases route <;> simp only [Router.handler] at hc
  · unfold Router.Insert at hc
    split at hc
    · simp at hc
    · split at hc
      · simp at hc; rw [hc]
      · split at hc <;> (simp at hc; rw [hc])
  · unfold Router.All at hc
    split at hc
    · simp at hc; rw [hc]
    · split at hc <;> (simp at hc; rw [hc])
  · unfold Router.ByID at hc
    split at hc
    · simp at hc
    · split at hc
      · simp at hc; rw [hc]
      · split at hc <;> (simp at hc; rw [hc])
  · unfold Router.Update at hc
    split at hc
    · simp at hc
    · split at hc
      · simp at hc
      · dsimp only at hc
        split at hc <;> (simp at hc; rw [hc])
  · unfold Router.Delete at hc
    split at hc
    · simp at hc
    · split at hc <;> (simp at hc; rw [hc])

/-! ## Client errors -/

/-- C1: when the id path segment does not parse as an integer, ByID and Delete
respond 400 and call no data-access operation, and so does Update once its
body has decoded; the store is left as it was. -/
theorem bad_id_is_bad_request {σ : Type} (lib : Lib) (a : Router σ) (r : http.Request)
    (s : σ) (we : Option String) (err : String)
    (hid : lib.Atoi (chi.URLParam r "id") = .error err) :
    ((a.ByID lib (http.NewResponseWriter we) r s).w.wroteHeader = some 400 ∧
      (a.ByID lib (http.NewResponseWriter we) r s).calls = [] ∧
      (a.ByID lib (http.NewResponseWriter we) r s).store = s) ∧
    ((a.Delete lib (http.NewResponseWriter we) r s).w.wroteHeader = some 400 ∧
      (a.Delete lib (http.NewResponseWriter we) r s).calls = [] ∧
      (a.Delete lib (http.NewResponseWriter we) r s).store = s) ∧
    (∀ u : model.User, lib.Decode r.Body = .ok u →
      (a.Update lib (http.NewResponseWriter we) r s).w.wroteHeader = some 400 ∧
      (a.Update lib (http.NewResponseWriter we) r s).calls = [] ∧
      (a.Update lib (http.NewResponseWriter we) r s).store = s) := by
  refine ⟨?_, ?_, ?_⟩
  · simp [Router.ByID, hid, http_Error_new_status, http.StatusBadRequest]
  · simp [Router.Delete, hid, http_Error_new_status, http.StatusBadRequest]
  · intro u hdec
    simp [Router.Update, hid, hdec, http_Error_new_status, http.StatusBadRequest]

/-- C1, at the path segment `abc`. -/
theorem bad_id_is_bad_request_witness :
    sample.lib.Atoi (chi.URLParam (sample.req sample.bobBody "abc") "id") =
        .error "strconv.Atoi: parsing \"abc\": invalid syntax" ∧
      ((sample.router.ByID sample.lib (http.NewResponseWriter none)
          (sample.req sample.bobBody "abc") [sample.alice]).w.wroteHeader = some 400 ∧
        (sample.router.ByID sample.lib (http.NewResponseWriter none)
          (sample.req sample.bobBody "abc") [sample.alice]).calls = []) ∧
      ((sample.router.Delete sample.lib (http.NewResponseWriter none)
          (sample.req sample.bobBody "abc") [sample.alice]).w.wroteHeader = some 400 ∧
        (sample.router.Delete sample.lib (http.NewResponseWriter none)
          (sample.req sample.bobBody "abc") [sample.alice]).calls = []) ∧
      sample.lib.Decode (sample.req sample.bobBody "abc").Body =
        .ok { ID := 9, Name := "Bob", Email := "" } ∧
      (sample.router.Update sample.lib (http.NewResponseWriter none)
          (sample.req sample.bobBody "abc") [sample.alice]).w.wroteHeader = some 400 ∧
      (sample.router.Update sample.lib (http.NewResponseWriter none)
          (sample.req sample.bobBody "abc") [sample.alice]).calls = [] :=
  have h := bad_id_is_bad_request sample.lib sample.router (sample.req sample.bobBody "abc")
    [sample.alice] none "strconv.Atoi: parsing \"abc\": invalid syntax" (by rfl)
  have hu := h.2.2 { ID := 9, Name := "Bob", Email := "" } (by rfl)
  ⟨by rfl, ⟨h.1.1, h.1.2.1⟩, ⟨h.2.1.1, h.2.1.2.1⟩, by rfl, hu.1, hu.2.1⟩

/-- C2: when the body does not decode as a User, Insert and Update respond
400 with the text of the decode error as the body (written as one line by
http.Error), call neither DB.Insert nor DB.Update and leave the store as it
was; for Update whatever the id path segment is. -/
theorem bad_body_is_bad_request {σ : Type} (lib : Lib) (a : Router σ) (r : http.Request)
    (s : σ) (we : Option String) (err : String)
    (hdec : lib.Decode r.Body = .error err) :
    ((a.Insert lib (http.NewResponseWriter we) r s).w.wroteHeader = some 400 ∧
      (a.Insert lib (http.NewResponseWriter none) r s).w.body = err ++ "\n" ∧
      (a.Insert lib (http.NewResponseWriter we) r s).calls = [] ∧
      (a.Insert lib (http.NewResponseWriter we) r s).store = s) ∧
    ((a.Update lib (http.NewResponseWriter we) r s).w.wroteHeader = some 400 ∧
      (a.Update lib (http.NewResponseWriter none) r s).w.body = err ++ "\n" ∧
      (a.Update lib (http.NewResponseWriter we) r s).calls = [] ∧
      (a.Update lib (http.NewResponseWriter we) r s).store = s) := by
  refine ⟨?_, ?_⟩
  · simp [Router.Insert, hdec, http_Error_new_status, http_Error_new_body,
      http.StatusBadRequest]
  · simp [Router.Update, hdec, http_Error_new_status, http_Error_new_body,
      http.StatusBadRequest]

/-- C2, at an empty body, with a good and with a bad id segment. -/
theorem bad_body_is_bad_request_witness :
    sample.lib.Decode (sample.req "" "1").Body = .error "unexpected end of JSON input" ∧
      (sample.router.Insert sample.lib (http.NewResponseWriter none)
          (sample.req "" "1") [sample.alice]).w.wroteHeader = some 400 ∧
      (sample.router.Update sample.lib (http.NewResponseWriter none)
          (sample.req "" "1") [sample.alice]).w.body = "unexpected end of JSON input\n" ∧
      (sample.router.Update sample.lib (http.NewResponseWriter none)
          (sample.req "" "abc") [sample.alice]).calls = [] ∧
      (sample.router.Update sample.lib (http.NewResponseWriter none)
          (sample.req "" "abc") [sample.alice]).store = [sample.alice] :=
  have h1 := bad_body_is_bad_request sample.lib sample.router (sample.req "" "1")
    [sample.alice] none "unexpected end of JSON input" (by rfl)
  have h2 := bad_body_is_bad_request sample.lib sample.router (sample.req "" "abc")
    [sample.alice] none "unexpected end of JSON input" (by rfl)
  ⟨by rfl, h1.1.1, h1.2.2.1, h2.2.2.2.1, h2.2.2.2.2⟩

/-! ## Update -/

/-- C3: when the body decodes to u and the path id parses to n, Update calls
DB.Update exactly once, and no other operation, with the User that has ID n
and every other field as in u. -/
theorem update_path_id_wins {σ : Type} (lib : Lib) (a : Router σ) (w : http.ResponseWriter)
    (r : http.Request) (s : σ) (u : model.User) (n : Int)
    (hdec : lib.Decode r.Body = .ok u)
    (hid : lib.Atoi (chi.URLParam r "id") = .ok n) :
    ∃ v : model.User, v.ID = n ∧ v.Name = u.Name ∧ v.Email = u.Email ∧
      (a.Update lib w r s).calls =
        [{ ctx := Context.Background, op := Op.Update v,
           err := (a.Service.DB.Update Context.Background v s).1 }] ∧
      (a.Update lib w r s).store = (a.Service.DB.Update Context.Background v s).2 := by
  refine ⟨{ u with ID := n }, rfl, rfl, rfl, ?_⟩
  rcases hres : a.Service.DB.Update Context.Background { u with ID := n } s with ⟨e, s1⟩
  cases e <;> simp [Router.Update, hdec, hid, hres]

/-- C3, at a body that carries the id 9 sent to the path id 1. -/
theorem update_path_id_wins_witness :
    sample.lib.Decode (sample.req sample.bobBody "1").Body =
        .ok { ID := 9, Name := "Bob", Email := "" } ∧
      sample.lib.Atoi (chi.URLParam (sample.req sample.bobBody "1") "id") = .ok 1 ∧
      ∃ v : model.User, v.ID = 1 ∧ v.Name = "Bob" ∧ v.Email = "" ∧
        (sample.router.Update sample.lib (http.NewResponseWriter none)
          (sample.req sample.bobBody "1") [sample.alice]).calls =
          [{ ctx := Context.Background, op := Op.Update v,
             err := (sample.router.Service.DB.Update Context.Background v [sample.alice]).1 }] ∧
        (sample.router.Update sample.lib (http.NewResponseWriter none)
          (sample.req sample.bobBody "1") [sample.alice]).store =
          (sample.router.Service.DB.Update Context.Background v [sample.alice]).2 :=
  ⟨by rfl, by rfl,
    update_path_id_wins sample.lib sample.router (http.NewResponseWriter none)
      (sample.req sample.bobBody "1") [sample.alice] { ID := 9, Name := "Bob", Email := "" } 1
      (by rfl) (by rfl)⟩

/-! ## Store errors -/

/-- C4: in each of the five handlers, when request parsing succeeds and the
data-access call returns an error e, whatever error it is, the response status
is 500 and the body carries the text of e (written as one line by
http.Error). -/
theorem store_error_is_internal_server_error {σ : Type} (lib : Lib) (a : Router σ)
    (r : http.Request) (s : σ) (we : Option String) (e : String) :
    (∀ u : model.User, lib.Decode r.Body = .ok u →
      (a.Service.DB.Insert Context.Background u s).1 = some e →
      (a.Insert lib (http.NewResponseWriter we) r s).w.wroteHeader = some 500 ∧
      (a.Insert lib (http.NewResponseWriter none) r s).w.body = e ++ "\n") ∧
    ((a.Service.DB.All Context.Background s).1 = .error e →
      (a.All lib (http.NewResponseWriter we) r s).w.wroteHeader = some 500 ∧
      (a.All lib (http.NewResponseWriter none) r s).w.body = e ++ "\n") ∧
    (∀ id : Int, lib.Atoi (chi.URLParam r "id") = .ok id →
      (a.Service.DB.User Context.Background id s).1 = .error e →
      (a.ByID lib (http.NewResponseWriter we) r s).w.wroteHeader = some 500 ∧
      (a.ByID lib (http.NewResponseWriter none) r s).w.body = e ++ "\n") ∧
    (∀ (u : model.User) (id : Int), lib.Decode r.Body = .ok u →
      lib.Atoi (chi.URLParam r "id") = .ok id →
      (a.Service.DB.Update Context.Background { u with ID := id } s).1 = some e →
      (a.Update lib (http.NewResponseWriter we) r s).w.wroteHeader = some 500 ∧
      (a.Update lib (http.NewResponseWriter none) r s).w.body = e ++ "\n") ∧
    (∀ id : Int, lib.Atoi (chi.URLParam r "id") = .ok id →
      (a.Service.DB.Delete Context.Background id s).1 = some e →
      (a.Delete lib (http.NewResponseWriter we) r s).w.wroteHeader = some 500 ∧
      (a.Delete lib (http.NewResponseWriter none) r s).w.body = e ++ "\n") := by
  refine ⟨?_, ?_, ?_, ?_, ?_⟩
  · intro u hdec hdb
    rcases hres : a.Service.DB.Insert Context.Background u s with ⟨x, u1, s1⟩
    rw [hres] at hdb
    simp only at hdb
    subst hdb
    simp [Router.Insert, hdec, hres, http_Error_new_status, http_Error_new_body,
      http.StatusInternalServerError]
  · intro hdb
    rcases hres : a.Service.DB.All Context.Background s with ⟨x, s1⟩
    rw [hres] at hdb
    simp only at hdb
    subst hdb
    simp [Router.All, hres, http_Error_new_status, http_Error_new_body,
      http.StatusInternalServerError]
  · intro id hid hdb
    rcases hres : a.Service.DB.User Context.Background id s with ⟨x, s1⟩
    rw [hres] at hdb
    simp only at hdb
    subst hdb
    simp [Router.ByID, hid, hres, http_Error_new_status, http_Error_new_body,
      http.StatusInternalServerError]
  · intro u id hdec hid hdb
    rcases hres : a.Service.DB.Update Context.Background { u with ID := id } s with ⟨x, s1⟩
    rw [hres] at hdb
    simp only at hdb
    subst hdb
    simp [Router.Update, hdec, hid, hres, http_Error_new_status, http_Error_new_body,
      http.StatusInternalServerError]
  · intro id hid hdb
    rcases hres : a.Service.DB.Delete Context.Background id s with ⟨x, s1⟩
    rw [hres] at hdb
    simp only at hdb
    subst hdb
    simp [Router.Delete, hid, hres, http_Error_new_status, http_Error_new_body,
      http.StatusInternalServerError]

/-- C4, at a store that refuses every operation, and at a missing row on
GET /users/2. -/
theorem store_error_is_internal_server_error_witness :
    ((sample.downRouter.Insert sample.lib (http.NewResponseWriter none)
          (sample.req sample.bobBody "1") ()).w.wroteHeader = some 500 ∧
        (sample.downRouter.Insert sample.lib (http.NewResponseWriter none)
          (sample.req sample.bobBody "1") ()).w.body = "connection refused\n") ∧
      ((sample.downRouter.All sample.lib (http.NewResponseWriter none)
          (sample.req sample.bobBody "1") ()).w.wroteHeader = some 500 ∧
        (sample.downRouter.All sample.lib (http.NewResponseWriter none)
          (sample.req sample.bobBody "1") ()).w.body = "connection refused\n") ∧
      ((sample.downRouter.ByID sample.lib (http.NewResponseWriter none)
          (sample.req sample.bobBody "1") ()).w.wroteHeader = some 500 ∧
        (sample.downRouter.ByID sample.lib (http.NewResponseWriter none)
          (sample.req sample.bobBody "1") ()).w.body = "connection refused\n") ∧
      ((sample.downRouter.Update sample.lib (http.NewResponseWriter none)
          (sample.req sample.bobBody "1") ()).w.wroteHeader = some 500 ∧
        (sample.downRouter.Update sample.lib (http.NewResponseWriter none)
          (sample.req sample.bobBody "1") ()).w.body = "connection refused\n") ∧
      ((sample.downRouter.Delete sample.lib (http.NewResponseWriter none)
          (sample.req sample.bobBody "1") ()).w.wroteHeader = some 500 ∧
        (sample.downRouter.Delete sample.lib (http.NewResponseWriter none)
          (sample.req sample.bobBody "1") ()).w.body = "connection refused\n") ∧
      (sample.router.Service.DB.User Context.Background 2 [sample.alice]).1 =
        .error "sql: no rows in result set" ∧
      (sample.router.ByID sample.lib (http.NewResponseWriter none)
          (sample.req "" "2") [sample.alice]).w.wroteHeader = some 500 ∧
      (sample.router.ByID sample.lib (http.NewResponseWriter none)
          (sample.req "" "2") [sample.alice]).w.body = "sql: no rows in result set\n" :=
  have h := store_error_is_internal_server_error sample.lib sample.downRouter
    (sample.req sample.bobBody "1") () none "connection refused"
  have g := store_error_is_internal_server_error sample.lib sample.router
    (sample.req "" "2") [sample.alice] none "sql: no rows in result set"
  have g3 := g.2.2.1 2 (by rfl) (by rfl)
  ⟨h.1 { ID := 9, Name := "Bob", Email := "" } (by rfl) (by rfl),
    h.2.1 (by rfl),
    h.2.2.1 1 (by rfl) (by rfl),
    h.2.2.2.1 { ID := 9, Name := "Bob", Email := "" } 1 (by rfl) (by rfl) (by rfl),
    h.2.2.2.2 1 (by rfl) (by rfl),
    by rfl, g3.1, g3.2⟩

/-! ## Insert -/

/-- C5: when the body decodes to u and DB.Insert returns no error, Insert
responds 201 with Content-Type application/json, and the body is the JSON
encoding of the User as DB.Insert left it through the pointer (u1), not that
of u as decoded. -/
theorem insert_responds_with_stored_user {σ : Type} (lib : Lib) (a : Router σ)
    (r : http.Request) (s : σ) (we : Option String) (u u1 : model.User) (uBytes : String)
    (hdec : lib.Decode r.Body = .ok u)
    (herr : (a.Service.DB.Insert Context.Background u s).1 = none)
    (hptr : (a.Service.DB.Insert Context.Background u s).2.1 = u1)
    (hjson : lib.Marshal u1 = .ok uBytes) :
    (a.Insert lib (http.NewResponseWriter we) r s).w.wroteHeader = some 201 ∧
    (a.Insert lib (http.NewResponseWriter we) r s).w.sentHeader.Get "Content-Type" =
      some "application/json" ∧
    (a.Insert lib (http.NewResponseWriter none) r s).w.body = uBytes ∧
    (a.Insert lib (http.NewResponseWriter we) r s).calls =
      [{ ctx := Context.Background, op := Op.Insert u, err := none }] := by
  rcases hres : a.Service.DB.Insert Context.Background u s with ⟨x, v, s1⟩
  rw [hres] at herr hptr
  simp only at herr hptr
  subst herr hptr
  simp [Router.Insert, hdec, hres, hjson, writeResp_new_status, writeResp_new_sentHeader,
    writeResp_new_body, http.StatusCreated, http.Header.Get]

/-- C5, at a body without an id, which the store numbers 1: the response
carries the id 1, which the encoding of the decoded user does not. -/
theorem insert_responds_with_stored_user_witness :
    sample.lib.Decode (sample.req sample.aliceBody "").Body =
        .ok { ID := 0, Name := "Alice", Email := "" } ∧
      sample.lib.Marshal { ID := 0, Name := "Alice", Email := "" } =
        .ok "\x7b\"id\":0,\"name\":\"Alice\"\x7d" ∧
      (sample.router.Insert sample.lib (http.NewResponseWriter none)
          (sample.req sample.aliceBody "") []).w.wroteHeader = some 201 ∧
      (sample.router.Insert sample.lib (http.NewResponseWriter none)
          (sample.req sample.aliceBody "") []).w.sentHeader.Get "Content-Type" =
        some "application/json" ∧
      (sample.router.Insert sample.lib (http.NewResponseWriter none)
          (sample.req sample.aliceBody "") []).w.body = "\x7b\"id\":1,\"name\":\"Alice\"\x7d" :=
  have h := insert_responds_with_stored_user sample.lib sample.router
    (sample.req sample.aliceBody "") [] none { ID := 0, Name := "Alice", Email := "" }
    sample.alice "\x7b\"id\":1,\"name\":\"Alice\"\x7d" (by rfl) (by rfl) (by rfl) (by rfl)
  ⟨by rfl, by rfl, h.1, h.2.1, h.2.2.1⟩

/-! ## All -/

/-- The encoding of a nil slice. -/
theorem MarshalSlice_nil (lib : Lib) : lib.MarshalSlice none = .ok "null" := rfl

/-- The encoding of an empty slice that is not nil. -/
theorem MarshalSlice_empty (lib : Lib) : lib.MarshalSlice (some []) = .ok "[]" := by
  rfl

/-- C6 as stated fails: on the empty in-memory store DB.All returns no error
and a nil slice, and the body of the 200 response is `null`, not `[]`. -/
theorem all_nil_slice_counterexample :
    ¬ ∀ (lib : Lib) (a : Router (List model.User)) (r : http.Request) (s : List model.User)
        (resp : Option (List model.User)),
        (a.Service.DB.All Context.Background s).1 = .ok resp →
        (resp = none ∨ resp = some []) →
        (a.All lib (http.NewResponseWriter none) r s).w.wroteHeader = some 200 ∧
        (a.All lib (http.NewResponseWriter none) r s).w.body = "[]" := by
  intro h
  have h1 := h sample.lib sample.router (sample.req "" "") [] none (by rfl) (Or.inl rfl)
  exact absurd h1.2 (by decide)

/-- C6, amended: when DB.All returns no error and an empty slice that is not
nil, All responds 200 with Content-Type application/json and the body `[]`;
when DB.All returns no error and a nil slice, All responds 200 with
Content-Type application/json and the body `null`. -/
theorem all_empty_slice {σ : Type} (lib : Lib) (a : Router σ) (r : http.Request) (s : σ)
    (we : Option String) :
    ((a.Service.DB.All Context.Background s).1 = .ok (some []) →
      (a.All lib (http.NewResponseWriter we) r s).w.wroteHeader = some 200 ∧
      (a.All lib (http.NewResponseWriter we) r s).w.sentHeader.Get "Content-Type" =
        some "application/json" ∧
      (a.All lib (http.NewResponseWriter none) r s).w.body = "[]") ∧
    ((a.Service.DB.All Context.Background s).1 = .ok none →
      (a.All lib (http.NewResponseWriter we) r s).w.wroteHeader = some 200 ∧
      (a.All lib (http.NewResponseWriter we) r s).w.sentHeader.Get "Content-Type" =
        some "application/json" ∧
      (a.All lib (http.NewResponseWriter none) r s).w.body = "null") := by
  refine ⟨?_, ?_⟩ <;>
  · intro hdb
    rcases hres : a.Service.DB.All Context.Background s with ⟨x, s1⟩
    rw [hres] at hdb
    simp only at hdb
    subst hdb
    simp [Router.All, hres, MarshalSlice_nil, MarshalSlice_empty, writeResp_new_status,
      writeResp_new_sentHeader, writeResp_new_body, http.StatusOK, http.Header.Get]

/-- C6 amended, at the empty store: with a non-nil empty slice the body is
`[]`, with a nil slice it is `null`. -/
theorem all_empty_slice_witness :
    ((sample.allocRouter.Service.DB.All Context.Background []).1 = .ok (some []) ∧
      (sample.allocRouter.All sample.lib (http.NewResponseWriter none)
          (sample.req "" "") []).w.wroteHeader = some 200 ∧
      (sample.allocRouter.All sample.lib (http.NewResponseWriter none)
          (sample.req "" "") []).w.body = "[]") ∧
    ((sample.router.Service.DB.All Context.Background []).1 = .ok none ∧
      (sample.router.All sample.lib (http.NewResponseWriter none)
          (sample.req "" "") []).w.wroteHeader = some 200 ∧
      (sample.router.All sample.lib (http.NewResponseWriter none)
          (sample.req "" "") []).w.body = "null") :=
  have h1 := (all_empty_slice sample.lib sample.allocRouter (sample.req "" "") [] none).1
    (by rfl)
  have h2 := (all_empty_slice sample.lib sample.router (sample.req "" "") [] none).2
    (by rfl)
  ⟨⟨by rfl, h1.1, h1.2.2⟩, ⟨by rfl, h2.1, h2.2.2⟩⟩

/-! ## Contexts -/

/-- Behind the timeout middleware too, every data-access call gets
`context.Background()`, which has no deadline. -/
theorem Handlers_calls_ctx {σ : Type} (lib : Lib) (a : Router σ) (expired : Bool)
    (route : Route) (w : http.ResponseWriter) (r : http.Request) (s : σ) (c : Call)
    (hc : c ∈ (Handlers lib a expired route w r s).calls) :
    c.ctx = Context.Background ∧ c.ctx.Deadline = none := by
  have h : c.ctx = Context.Background := by
    unfold Handlers middleware.Timeout at hc
    cases expired <;> exact handler_calls_ctx lib a route _ _ _ c (by simpa using hc)
  exact ⟨h, by rw [h]; rfl⟩

/-- C7 fails on the code: on GET /users/1 through `Handlers`, the request
reaches ByID with the context that carries the 15-second deadline, and ByID
calls DB.User with `context.Background()`, which is another context and has no
deadline, also when the deadline has passed. -/
theorem handlers_pass_background_context :
    (Handlers sample.lib sample.router true Route.GetUser (http.NewResponseWriter none)
        (sample.req "" "1") [sample.alice]).calls =
      (sample.router.ByID sample.lib (http.NewResponseWriter none)
        ((sample.req "" "1").WithContext
          (Context.WithTimeout (sample.req "" "1").ctx (15 * 1000000000)))
        [sample.alice]).calls ∧
    ((sample.req "" "1").WithContext
      (Context.WithTimeout (sample.req "" "1").ctx (15 * 1000000000))).ctx.Deadline =
        some 15000000000 ∧
    (Handlers sample.lib sample.router true Route.GetUser (http.NewResponseWriter none)
        (sample.req "" "1") [sample.alice]).calls =
      [{ ctx := Context.Background, op := Op.User 1, err := none }] ∧
    Context.Background ≠
      ((sample.req "" "1").WithContext
        (Context.WithTimeout (sample.req "" "1").ctx (15 * 1000000000))).ctx ∧
    Context.Background.Deadline = none := by
  refine ⟨by rfl, by rfl, by rfl, by decide, by rfl⟩

/-! ## writeResp -/

/-- C8 as stated fails: not every status is sent as the status line. With the
status 0, WriteHeader panics and no status line goes out. -/
theorem writeResp_invalid_status_counterexample :
    (¬ ∀ (status : Nat) (data : Option String) (we : Option String),
        (writeResp (http.NewResponseWriter we) status data).wroteHeader = some status) ∧
    (writeResp (http.NewResponseWriter none) 0 none).wroteHeader = none ∧
    (writeResp (http.NewResponseWriter none) 0 none).panicked =
      some "invalid WriteHeader code 0" ∧
    (writeResp (http.NewResponseWriter none) 0 (some "[]")).wroteHeader = none := by
  refine ⟨?_, by rfl, by rfl, by rfl⟩
  intro h
  exact absurd (h 0 none none) (by decide)

/-- C8, amended: on the writer of a new response and for every final status
code (101, or 200 to 999), writeResp sends one status line, with the status it
is given (a later WriteHeader, as the one of http.Error after a failed body
write, sends nothing), and sends Content-Type application/json exactly when
the data is not nil; a successful Update or Delete responds 200 with an empty
body and no header set. -/
theorem writeResp_status_and_content_type {σ : Type} (status : Nat) (data : Option String)
    (we : Option String) (lib : Lib) (a : Router σ) (r : http.Request) (s : σ)
    (hs : status = 101 ∨ (200 ≤ status ∧ status ≤ 999)) :
    (writeResp (http.NewResponseWriter we) status data).wroteHeader = some status ∧
    ((writeResp (http.NewResponseWriter we) status data).sentHeader.Get "Content-Type" =
        some "application/json" ↔ data ≠ none) ∧
    (∀ (u : model.User) (id : Int), lib.Decode r.Body = .ok u →
      lib.Atoi (chi.URLParam r "id") = .ok id →
      (a.Service.DB.Update Context.Background { u with ID := id } s).1 = none →
      (a.Update lib (http.NewResponseWriter we) r s).w.wroteHeader = some 200 ∧
      (a.Update lib (http.NewResponseWriter we) r s).w.body = "" ∧
      (a.Update lib (http.NewResponseWriter we) r s).w.sentHeader = []) ∧
    (∀ id : Int, lib.Atoi (chi.URLParam r "id") = .ok id →
      (a.Service.DB.Delete Context.Background id s).1 = none →
      (a.Delete lib (http.NewResponseWriter we) r s).w.wroteHeader = some 200 ∧
      (a.Delete lib (http.NewResponseWriter we) r s).w.body = "" ∧
      (a.Delete lib (http.NewResponseWriter we) r s).w.sentHeader = []) := by
  have h200 : (200 : Nat) = 101 ∨ (200 ≤ 200 ∧ 200 ≤ 999) := by decide
  refine ⟨writeResp_new_status we status data hs, ?_, ?_, ?_⟩
  · rw [writeResp_new_sentHeader we status data hs]
    cases data <;> simp [http.Header.Get]
  · intro u id hdec hid hdb
    rcases hres : a.Service.DB.Update Context.Background { u with ID := id } s with ⟨x, s1⟩
    rw [hres] at hdb
    simp only at hdb
    subst hdb
    simp only [Router.Update, hdec, hid, hres]
    refine ⟨writeResp_new_status we _ none h200, ?_, writeResp_new_sentHeader we _ none h200⟩
    cases we <;> rfl
  · intro id hid hdb
    rcases hres : a.Service.DB.Delete Context.Background id s with ⟨x, s1⟩
    rw [hres] at hdb
    simp only at hdb
    subst hdb
    simp only [Router.Delete, hid, hres]
    refine ⟨writeResp_new_status we _ none h200, ?_, writeResp_new_sentHeader we _ none h200⟩
    cases we <;> rfl

/-- C8 amended, at the status 201 with data, and at PUT /users/1 and
DELETE /users/1 on a store that holds user 1. -/
theorem writeResp_status_and_content_type_witness :
    ((201 : Nat) = 101 ∨ (200 ≤ 201 ∧ 201 ≤ 999)) ∧
      (writeResp (http.NewResponseWriter none) 201 (some "[]")).wroteHeader = some 201 ∧
      ((writeResp (http.NewResponseWriter none) 201 (some "[]")).sentHeader.Get
          "Content-Type" = some "application/json" ↔ some "[]" ≠ none) ∧
      ((sample.router.Update sample.lib (http.NewResponseWriter none)
          (sample.req sample.bobBody "1") [sample.alice]).w.wroteHeader = some 200 ∧
        (sample.router.Update sample.lib (http.NewResponseWriter none)
          (sample.req sample.bobBody "1") [sample.alice]).w.body = "" ∧
        (sample.router.Update sample.lib (http.NewResponseWriter none)
          (sample.req sample.bobBody "1") [sample.alice]).w.sentHeader = []) ∧
      ((sample.router.Delete sample.lib (http.NewResponseWriter none)
          (sample.req sample.bobBody "1") [sample.alice]).w.wroteHeader = some 200 ∧
        (sample.router.Delete sample.lib (http.NewResponseWriter none)
          (sample.req sample.bobBody "1") [sample.alice]).w.body = "" ∧
        (sample.router.Delete sample.lib (http.NewResponseWriter none)
          (sample.req sample.bobBody "1") [sample.alice]).w.sentHeader = []) :=
  have h := writeResp_status_and_content_type 201 (some "[]") none sample.lib sample.router
    (sample.req sample.bobBody "1") [sample.alice] (by decide)
  ⟨by decide, h.1, h.2.1,
    h.2.2.1 { ID := 9, Name := "Bob", Email := "" } 1 (by rfl) (by rfl) (by rfl),
    h.2.2.2 1 (by rfl) (by rfl)⟩

/-- C9 fails on the code: when the body write fails, the status line has
already gone out with the status writeResp was given, and the 500 of http.Error
comes too late to replace it: the response of GET /users keeps the status 200. -/
theorem writeResp_failed_write_keeps_status :
    (writeResp (http.NewResponseWriter (some "write: broken pipe")) 200
        (some "[]")).wroteHeader = some 200 ∧
    (writeResp (http.NewResponseWriter (some "write: broken pipe")) 200
        (some "[]")).wroteHeader ≠ some 500 ∧
    (writeResp (http.NewResponseWriter (some "write: broken pipe")) 200
        (some "[]")).body = "" ∧
    (sample.router.All sample.lib (http.NewResponseWriter (some "write: broken pipe"))
        (sample.req "" "") [sample.alice]).w.wroteHeader = some 200 := by
  refine ⟨by rfl, by decide, by rfl, by rfl⟩

/-! ## One call per request -/

/-- C10: every handler calls the data-access interface at most once. A run
either makes no call, leaves the store as it was and answers 400; or it makes
exactly one call, the one of its route at the parsed arguments, logs the error
the store returned and leaves the store the call left, and then it answers
500, or the success status (201 for Insert, 200 otherwise) and the store
returned no error. -/
theorem handler_status_and_calls {σ : Type} (lib : Lib) (a : Router σ) (r : http.Request)
    (s : σ) (we : Option String) :
    (((a.Insert lib (http.NewResponseWriter we) r s).calls = [] ∧
        (a.Insert lib (http.NewResponseWriter we) r s).store = s ∧
        (a.Insert lib (http.NewResponseWriter we) r s).w.wroteHeader = some 400) ∨
      ∃ u : model.User, lib.Decode r.Body = .ok u ∧
        (a.Insert lib (http.NewResponseWriter we) r s).calls =
          [{ ctx := Context.Background, op := Op.Insert u,
             err := (a.Service.DB.Insert Context.Background u s).1 }] ∧
        (a.Insert lib (http.NewResponseWriter we) r s).store =
          (a.Service.DB.Insert Context.Background u s).2.2 ∧
        ((a.Insert lib (http.NewResponseWriter we) r s).w.wroteHeader = some 500 ∨
          ((a.Insert lib (http.NewResponseWriter we) r s).w.wroteHeader = some 201 ∧
            (a.Service.DB.Insert Context.Background u s).1 = none))) ∧
    ((a.All lib (http.NewResponseWriter we) r s).calls =
        [{ ctx := Context.Background, op := Op.All,
           err := errOf (a.Service.DB.All Context.Background s).1 }] ∧
      (a.All lib (http.NewResponseWriter we) r s).store =
        (a.Service.DB.All Context.Background s).2 ∧
      ((a.All lib (http.NewResponseWriter we) r s).w.wroteHeader = some 500 ∨
        ((a.All lib (http.NewResponseWriter we) r s).w.wroteHeader = some 200 ∧
          errOf (a.Service.DB.All Context.Background s).1 = none))) ∧
    (((a.ByID lib (http.NewResponseWriter we) r s).calls = [] ∧
        (a.ByID lib (http.NewResponseWriter we) r s).store = s ∧
        (a.ByID lib (http.NewResponseWriter we) r s).w.wroteHeader = some 400) ∨
      ∃ id : Int, lib.Atoi (chi.URLParam r "id") = .ok id ∧
        (a.ByID lib (http.NewResponseWriter we) r s).calls =
          [{ ctx := Context.Background, op := Op.User id,
             err := errOf (a.Service.DB.User Context.Background id s).1 }] ∧
        (a.ByID lib (http.NewResponseWriter we) r s).store =
          (a.Service.DB.User Context.Background id s).2 ∧
        ((a.ByID lib (http.NewResponseWriter we) r s).w.wroteHeader = some 500 ∨
          ((a.ByID lib (http.NewResponseWriter we) r s).w.wroteHeader = some 200 ∧
            errOf (a.Service.DB.User Context.Background id s).1 = none))) ∧
    (((a.Update lib (http.NewResponseWriter we) r s).calls = [] ∧
        (a.Update lib (http.NewResponseWriter we) r s).store = s ∧
        (a.Update lib (http.NewResponseWriter we) r s).w.wroteHeader = some 400) ∨
      ∃ (u : model.User) (id : Int), lib.Decode r.Body = .ok u ∧
        lib.Atoi (chi.URLParam r "id") = .ok id ∧
        (a.Update lib (http.NewResponseWriter we) r s).calls =
          [{ ctx := Context.Background, op := Op.Update { u with ID := id },
             err := (a.Service.DB.Update Context.Background { u with ID := id } s).1 }] ∧
        (a.Update lib (http.NewResponseWriter we) r s).store =
          (a.Service.DB.Update Context.Background { u with ID := id } s).2 ∧
        ((a.Update lib (http.NewResponseWriter we) r s).w.wroteHeader = some 500 ∨
          ((a.Update lib (http.NewResponseWriter we) r s).w.wroteHeader = some 200 ∧
            (a.Service.DB.Update Context.Background { u with ID := id } s).1 = none))) ∧
    (((a.Delete lib (http.NewResponseWriter we) r s).calls = [] ∧
        (a.Delete lib (http.NewResponseWriter we) r s).store = s ∧
        (a.Delete lib (http.NewResponseWriter we) r s).w.wroteHeader = some 400) ∨
      ∃ id : Int, lib.Atoi (chi.URLParam r "id") = .ok id ∧
        (a.Delete lib (http.NewResponseWriter we) r s).calls =
          [{ ctx := Context.Background, op := Op.Delete id,
             err := (a.Service.DB.Delete Context.Background id s).1 }] ∧
        (a.Delete lib (http.NewResponseWriter we) r s).store =
          (a.Service.DB.Delete Context.Background id s).2 ∧
        ((a.Delete lib (http.NewResponseWriter we) r s).w.wroteHeader = some 500 ∨
          ((a.Delete lib (http.NewResponseWriter we) r s).w.wroteHeader = some 200 ∧
            (a.Service.DB.Delete Context.Background id s).1 = none))) := by
  refine ⟨?_, ?_, ?_, ?_, ?_⟩
  · cases hdec : lib.Decode r.Body with
    | error e =>
      left
      simp [Router.Insert, hdec, http_Error_new_status, http.StatusBadRequest]
    | ok u =>
      right
      refine ⟨u, rfl, ?_⟩
      rcases hres : a.Service.DB.Insert Context.Background u s with ⟨x, u1, s1⟩
      cases x with
      | some e =>
        simp [Router.Insert, hdec, hres, http_Error_new_status,
          http.StatusInternalServerError]
      | none =>
        cases hm : lib.Marshal u1 <;>
          simp [Router.Insert, hdec, hres, hm, http_Error_new_status, writeResp_new_status,
            http.StatusInternalServerError, http.StatusCreated]
  · rcases hres : a.Service.DB.All Context.Background s with ⟨x, s1⟩
    cases x with
    | error e =>
      simp [Router.All, hres, errOf, http_Error_new_status, http.StatusInternalServerError]
    | ok resp =>
      cases hm : lib.MarshalSlice resp <;>
        simp [Router.All, hres, hm, errOf, http_Error_new_status, writeResp_new_status,
          http.StatusInternalServerError, http.StatusOK]
  · cases hid : lib.Atoi (chi.URLParam r "id") with
    | error e =>
      left
      simp [Router.ByID, hid, http_Error_new_status, http.StatusBadRequest]
    | ok id =>
      right
      refine ⟨id, rfl, ?_⟩
      rcases hres : a.Service.DB.User Context.Background id s with ⟨x, s1⟩
      cases x with
      | error e =>
        simp [Router.ByID, hid, hres, errOf, http_Error_new_status,
          http.StatusInternalServerError]
      | ok resp =>
        cases hm : lib.Marshal resp <;>
          simp [Router.ByID, hid, hres, hm, errOf, http_Error_new_status,
            writeResp_new_status, http.StatusInternalServerError, http.StatusOK]
  · cases hdec : lib.Decode r.Body with
    | error e =>
      left
      simp [Router.Update, hdec, http_Error_new_status, http.StatusBadRequest]
    | ok u =>
      cases hid : lib.Atoi (chi.URLParam r "id") with
      | error e =>
        left
        simp [Router.Update, hdec, hid, http_Error_new_status, http.StatusBadRequest]
      | ok id =>
        right
        refine ⟨u, id, rfl, rfl, ?_⟩
        rcases hres : a.Service.DB.Update Context.Background { u with ID := id } s with
          ⟨x, s1⟩
        cases x <;>
          simp [Router.Update, hdec, hid, hres, http_Error_new_status, writeResp_new_status,
            http.StatusInternalServerError, http.StatusOK]
  · cases hid : lib.Atoi (chi.URLParam r "id") with
    | error e =>
      left
      simp [Router.Delete, hid, http_Error_new_status, http.StatusBadRequest]
    | ok id =>
      right
      refine ⟨id, rfl, ?_⟩
      rcases hres : a.Service.DB.Delete Context.Background id s with ⟨x, s1⟩
      cases x <;>
        simp [Router.Delete, hid, hres, http_Error_new_status, writeResp_new_status,
          http.StatusInternalServerError, http.StatusOK]
